import Mathlib

/-!
Verification of the refit module of the hybrid_md package
(`hybrid_md_package/hybrid_md/refit.py`).

The Python module is shallowly embedded as follows:

* `World` carries the observable execution environment: the filesystem
  (a map from file names to optional contents), an event trace recording
  the side effects performed so far, and call counters into the
  environment `Env`, which supplies the successive results of
  `ase.io.read(state.xyz_filename, ":")`, `state.get_previous_data()`,
  `time()` (already rendered to the string an f-string would produce),
  the behaviour of the external `gap_fit` process, and the textual
  rendering of floats interpolated into f-strings.
* Python exceptions are the inductive `PyErr`; a Python call either
  returns a `PyVal` or raises, so embedded functions return
  `(Except PyErr PyVal) × World`.
* The dynamic import machinery (`importlib.import_module`, `hasattr`,
  `getattr`) is embedded by a map from module names to `PyModule`s whose
  attributes are either callables or plain (non-callable) values;
  `importlib.import_module` raises `ValueError` on an empty module name
  and `ModuleNotFoundError` on an unknown one, matching CPython.
* Floating-point arithmetic (`np.std`) is idealised over `ℝ`.
-/

namespace HybridMDRefit

/-- One training structure (an `ase.Atoms` object) as far as this module
observes it: its number of atoms (`len(at)`) and its total energy label
`at.info["QM_energy"]`. -/
structure Atoms where
  natoms : ℕ
  qm_energy : ℝ

/-- Contents of a file: a serialized list of structures (`train.xyz`),
plain text (the captured output files), or an opaque binary artifact
(a fitted model). -/
inductive FileData where
  | frames (fr : List Atoms)
  | text (s : String)
  | blob (tag : ℕ)

/-- Observable side effects of one run, in order of occurrence. -/
inductive Event where
  | readXyz (filename : String) (result : List Atoms)
  | readPrev (result : List Atoms)
  | moveFile (src dst : String)
  | writeFile (dst : String) (data : FileData)
  | runProcess (cmd : String)

/-- Result of running the external `gap_fit` process on a command line:
exit code, captured streams, and the model file contents it leaves (if
any) under the canonical model name. -/
structure FitResult where
  exitCode : ℕ
  stdout : String
  stderr : String
  model : Option FileData

/-- The ambient environment: successive results of the reads, of
`time()` (as rendered text), the external process behaviour, and the
f-string rendering of floats. -/
structure Env where
  xyzReads : ℕ → List Atoms
  prevReads : ℕ → List Atoms
  time : ℕ → String
  fit : String → FitResult
  render : ℝ → String

/-- Execution state threaded through the embedded code. -/
structure World where
  env : Env
  fs : String → Option FileData
  nXyz : ℕ
  nPrev : ℕ
  nTime : ℕ
  trace : List Event

/-- The slice of the `HybridMD` state object that `refit.py` reads. -/
structure HybridMD where
  xyz_filename : String
  refit_function_name : Option String

/-- Python exceptions raised by this module. -/
inductive PyErr where
  | runtimeError (msg : String)
  | assertionError
  | valueError (msg : String)
  | calledProcessError (returncode : ℕ) (stdout stderr : String)
  deriving DecidableEq

/-- Python values returned by refit functions (`None`, or anything a
user-supplied refit function may return). -/
inductive PyVal where
  | none
  | other (n : ℕ)
  deriving DecidableEq

/-- `ase.io.read(state.xyz_filename, ":")`: yields the next read result
and records the read. -/
def readXyzFile (st : HybridMD) (w : World) : List Atoms × World :=
  (w.env.xyzReads w.nXyz,
   { w with nXyz := w.nXyz + 1,
            trace := w.trace ++ [Event.readXyz st.xyz_filename (w.env.xyzReads w.nXyz)] })

/-- `state.get_previous_data()`. -/
def getPreviousData (w : World) : List Atoms × World :=
  (w.env.prevReads w.nPrev,
   { w with nPrev := w.nPrev + 1,
            trace := w.trace ++ [Event.readPrev (w.env.prevReads w.nPrev)] })

/-- `time()`, rendered as the f-string renders it. -/
def callTime (w : World) : String × World :=
  (w.env.time w.nTime, { w with nTime := w.nTime + 1 })

/-- Point update of the filesystem map. -/
def setFile (fs : String → Option FileData) (name : String) (d : Option FileData) :
    String → Option FileData :=
  fun m => if m = name then d else fs m

/-- `shutil.move(src, dst)` for files: `dst` receives the contents of
`src` (clobbering anything at `dst`), `src` disappears. -/
def shutilMove (src dst : String) (w : World) : World :=
  { w with fs := setFile (setFile w.fs dst (w.fs src)) src Option.none,
           trace := w.trace ++ [Event.moveFile src dst] }

/-- `open(name, "w").write(...)` and `ase.io.write(name, ...)`:
unconditional overwrite. -/
def writeFileW (name : String) (d : FileData) (w : World) : World :=
  { w with fs := setFile w.fs name (some d),
           trace := w.trace ++ [Event.writeFile name d] }

/-- `gp_name = "GAP.xml"` (line 117 of `refit.py`). -/
def gp_name : String := "GAP.xml"

/-- `subprocess.run(cmd, shell=True, capture_output=True, text=True,
check=True)`: blocks, captures both streams, and (modelling the external
tool's contract) determines the contents under the canonical model name
`gp_file=GAP.xml`; at invocation time that name is always vacant because
any previous model was moved away. -/
def runProcess (cmd : String) (w : World) : FitResult × World :=
  (w.env.fit cmd,
   { w with fs := setFile w.fs gp_name (w.env.fit cmd).model,
            trace := w.trace ++ [Event.runProcess cmd] })

/-- `np.std`: population standard deviation (`ddof=0`),
`sqrt(mean((x - mean(x))^2))`. -/
noncomputable def np_std (xs : List ℝ) : ℝ :=
  Real.sqrt (((xs.map (fun x => (x - xs.sum / (xs.length : ℝ)) ^ 2)).sum) / (xs.length : ℝ))

/-- Line 64 of `refit.py`:
`delta = np.std([at.info["QM_energy"] / len(at) for at in frames_train]) / 4`. -/
noncomputable def delta_turbo_si_c (frames_train : List Atoms) : ℝ :=
  np_std (frames_train.map (fun a => a.qm_energy / (a.natoms : ℝ))) / 4

/-- Line 122 of `refit.py`, the identical expression inside
`refit_generic`. -/
noncomputable def delta_generic (frames_train : List Atoms) : ℝ :=
  np_std (frames_train.map (fun a => a.qm_energy / (a.natoms : ℝ))) / 4

/-- The two-body descriptor block (lines 67-71 and 123-127; the two
occurrences in the source are textually identical). -/
def desc_str_2b (render : ℝ → String) (delta : ℝ) : String :=
  "distance_Nb order=2 n_sparse=20 cutoff=4.5 cutoff_transition_width=1.0 " ++
  "compact_clusters covariance_type=ard_se theta_uniform=1.0 sparse_method=uniform " ++
  "f0=0.0 add_species=T delta=" ++ render delta

/-- The generic SOAP descriptor block (lines 128-132). -/
def desc_str_soap_generic (render : ℝ → String) (delta : ℝ) : String :=
  "soap n_sparse=200 n_max=8 l_max=4 cutoff=4.0 cutoff_transition_width=1.0 " ++
  "atom_sigma=0.5 add_species=True " ++
  "delta=" ++ render delta ++
  " covariance_type=dot_product zeta=4 sparse_method=cur_points"

/-- `soap_n_sparse = 200` (line 74). -/
def soap_n_sparse : ℕ := 200

/-- `soap_common` (lines 75-81). The source builds it from plain (non-f)
string literals, so the doubled braces remain literally doubled. -/
def soap_common : String :=
  " n_species=2 species_Z=\x7b\x7b6 14\x7d\x7d rcut_hard=4.5 rcut_soft=3.5 alpha_max=\x7b\x7b10 10\x7d\x7d l_max=6 " ++
  "atom_sigma_r=\x7b\x7b0.3 0.3\x7d\x7d atom_sigma_t=\x7b\x7b0.3 0.3\x7d\x7d atom_sigma_r_scaling=\x7b\x7b0.10 0.10\x7d\x7d " ++
  "atom_sigma_t_scaling=\x7b\x7b0.10 0.10\x7d\x7d amplitude_scaling=\x7b\x7b1. 1.\x7d\x7d radial_enhancement=1 " ++
  "basis=poly3gauss scaling_mode=polynomial central_weight=\x7b\x7b1. 1.\x7d\x7d f0=0.0 " ++
  "covariance_type=dot_product zeta=4 sparse_method=cur_points add_species=F "

/-- `desc_str_soap` of `refit_turbo_si_c` (lines 82-85). -/
def desc_str_soap_turbo (render : ℝ → String) (delta : ℝ) : String :=
  "soap_turbo central_index=1 n_sparse=" ++ toString soap_n_sparse ++ " delta=" ++
    render delta ++ " " ++ soap_common ++ " : " ++
  "soap_turbo central_index=2 n_sparse=" ++ toString soap_n_sparse ++ " delta=" ++
    render delta ++ " " ++ soap_common ++ " "

/-- `descriptor_strs = desc_str_2b + " : " + desc_str_soap` (line 87). -/
def turbo_descriptor_strs (render : ℝ → String) (delta : ℝ) : String :=
  desc_str_2b render delta ++ " : " ++ desc_str_soap_turbo render delta

/-- Line 90: `default_sigma = "0.005 0.050 0.1 1.0"` inside
`refit_turbo_si_c`. -/
def turbo_default_sigma : String := "0.005 0.050 0.1 1.0"

/-- Line 114: the value substituted by `refit_generic` when
`default_sigma` is `None`. -/
def generic_default_sigma : String := "0.005 0.050 0.1 1.0"

/-- `if default_sigma is None: default_sigma = "0.005 0.050 0.1 1.0"`
(lines 113-114). -/
def resolved_sigma (default_sigma : Option String) : String :=
  match default_sigma with
  | some s => s
  | Option.none => generic_default_sigma

/-- `if descriptor_strs is None: ...` (lines 120-133): derive the
generic 2B+SOAP descriptor string, computing `delta` from the training
frames. -/
noncomputable def resolved_descs (descriptor_strs : Option String) (render : ℝ → String)
    (frames_train : List Atoms) : String :=
  match descriptor_strs with
  | some d => d
  | Option.none =>
      let delta := delta_generic frames_train
      desc_str_2b render delta ++ " : " ++ desc_str_soap_generic render delta

/-- The backup name `f"save__{time()}__{gp_name}"` (line 137). -/
def backup_name (t : String) : String :=
  "save__" ++ t ++ "__" ++ gp_name

/-- `f"stdout_{gp_name}_at_{time()}__.txt"` (line 158). -/
def stdout_capture_name (t : String) : String :=
  "stdout_" ++ gp_name ++ "_at_" ++ t ++ "__.txt"

/-- `f"stderr_{gp_name}_at_{time()}__.txt"` (line 160). -/
def stderr_capture_name (t : String) : String :=
  "stderr_" ++ gp_name ++ "_at_" ++ t ++ "__.txt"

/-- The fitting command line (lines 143-150). -/
def fit_str (default_sigma descriptor_strs : String) : String :=
  "gap_fit at_file=train.xyz gp_file=" ++ gp_name ++ " " ++
  "energy_parameter_name=QM_energy force_parameter_name=QM_forces" ++
  " virial_parameter_name=QM_virial " ++
  "sparse_jitter=1.0e-8 do_copy_at_file=F sparse_separate_file=F " ++
  "default_sigma=\x7b " ++ default_sigma ++ " \x7d e0_method=average " ++
  "gap=\x7b " ++ descriptor_strs ++ " \x7d"

/-- The command line `refit_generic` actually runs, as a function of its
arguments and of the training frames it read. -/
noncomputable def generic_cmd (descriptor_strs default_sigma : Option String)
    (render : ℝ → String) (frames_train : List Atoms) : String :=
  fit_str (resolved_sigma default_sigma) (resolved_descs descriptor_strs render frames_train)

/-- `refit_generic(state, descriptor_strs=None, default_sigma=None)`
(lines 95-161 of `refit.py`). The function body ends without `return`,
so on success it returns Python `None`. -/
noncomputable def refit_generic (st : HybridMD) (descriptor_strs : Option String)
    (default_sigma : Option String) (w0 : World) : (Except PyErr PyVal) × World :=
  let sigma := resolved_sigma default_sigma
  let p1 := readXyzFile st w0
  let p2 := getPreviousData p1.2
  let frames_train := p1.1 ++ p2.1
  let descs := resolved_descs descriptor_strs w0.env.render frames_train
  let w3 :=
    if (p2.2.fs gp_name).isSome then
      let pt := callTime p2.2
      shutilMove gp_name (backup_name pt.1) pt.2
    else p2.2
  let w4 := writeFileW "train.xyz" (FileData.frames frames_train) w3
  let pr := runProcess (fit_str sigma descs) w4
  if pr.1.exitCode ≠ 0 then
    (Except.error
      (PyErr.calledProcessError pr.1.exitCode pr.1.stdout pr.1.stderr), pr.2)
  else
    let pt1 := callTime pr.2
    let w5 := writeFileW (stdout_capture_name pt1.1) (FileData.text pr.1.stdout) pt1.2
    let pt2 := callTime w5
    let w6 := writeFileW (stderr_capture_name pt2.1) (FileData.text pr.1.stderr) pt2.2
    (Except.ok PyVal.none, w6)

/-- `refit_turbo_si_c(state)` (lines 60-92): reads the training set
itself to compute `delta`, builds the TurboSOAP descriptor strings and a
fixed sigma, then delegates to `refit_generic`. -/
noncomputable def refit_turbo_si_c (st : HybridMD) (w0 : World) : (Except PyErr PyVal) × World :=
  let p1 := readXyzFile st w0
  let p2 := getPreviousData p1.2
  let frames_train := p1.1 ++ p2.1
  let delta := delta_turbo_si_c frames_train
  let descriptor_strs := turbo_descriptor_strs w0.env.render delta
  let default_sigma := turbo_default_sigma
  refit_generic st (some descriptor_strs) (some default_sigma) p2.2

/-- An attribute of a Python module: either a callable with the refit
function interface, or a non-callable value. -/
inductive PyAttr where
  | pyfun (f : HybridMD → World → (Except PyErr PyVal) × World)
  | nonCallable (tag : ℕ)

/-- A Python module, observed through `hasattr`/`getattr`. -/
structure PyModule where
  attrs : String → Option PyAttr

/-- The process-global import system: which module names resolve. -/
def Modules := String → Option PyModule

/-- Outcome of `importlib.import_module`. -/
inductive ImportOutcome where
  | ok (m : PyModule)
  | moduleNotFoundError
  | valueErrorEmptyName

/-- `importlib.import_module(name)`: CPython raises
`ValueError("Empty module name")` for an empty name and
`ModuleNotFoundError` for an unresolvable one. -/
def import_module (modules : Modules) (name : String) : ImportOutcome :=
  if name = "" then ImportOutcome.valueErrorEmptyName
  else
    match modules name with
    | some m => ImportOutcome.ok m
    | Option.none => ImportOutcome.moduleNotFoundError

/-- Python `str.split(".")` on a character list: splitting on `'.'`
always yields at least one (possibly empty) segment, and adjacent or
trailing dots yield empty segments, exactly as in CPython. -/
def splitDot : List Char → List (List Char)
  | [] => [[]]
  | c :: rest =>
      match splitDot rest with
      | [] => [[]]
      | seg :: segs => if c = '.' then [] :: seg :: segs else (c :: seg) :: segs

/-- Python `refit_function_import.split(".")`. -/
def py_split_dot (s : String) : List String :=
  (splitDot s.data).map String.mk

/-- `".".join(refit_function_import.split(".")[:-1])` (line 38). -/
def module_name_of (s : String) : String :=
  String.intercalate "." (py_split_dot s).dropLast

/-- `refit_function_import.split(".")[-1]` (line 39). -/
def function_name_of (s : String) : String :=
  (py_split_dot s).getLastD ""

/-- `refit(state)` (lines 22-57 of `refit.py`): dispatch on
`state.refit_function_name`.  Only `ModuleNotFoundError` is caught and
re-raised as `RuntimeError`; the missing-attribute branch raises
`RuntimeError`; a non-callable attribute fails
`assert callable(refit_function)` with `AssertionError`; the
`ValueError` from importing an empty module name propagates uncaught. -/
noncomputable def refit (modules : Modules) (st : HybridMD) (w : World) :
    (Except PyErr PyVal) × World :=
  match st.refit_function_name with
  | Option.none => refit_generic st Option.none Option.none w
  | some refit_function_import =>
      let module_name := module_name_of refit_function_import
      let function_name := function_name_of refit_function_import
      match import_module modules module_name with
      | ImportOutcome.valueErrorEmptyName =>
          (Except.error (PyErr.valueError "Empty module name"), w)
      | ImportOutcome.moduleNotFoundError =>
          (Except.error (PyErr.runtimeError
            ("Refit function\x27s module not found: " ++ module_name)), w)
      | ImportOutcome.ok md =>
          match md.attrs function_name with
          | Option.none =>
              (Except.error (PyErr.runtimeError
                ("Refit function (" ++ function_name ++ ") not found in module "
                  ++ module_name)), w)
          | some (PyAttr.nonCallable _) => (Except.error PyErr.assertionError, w)
          | some (PyAttr.pyfun f) => f st w

end HybridMDRefit

namespace HybridMDRefit

/-! ## Shared example fixtures -/

/-- An example environment: empty reads, constant time stamp text, a
fitting tool that succeeds, and a fixed float rendering. -/
def exEnv : Env :=
  { xyzReads := fun _ => []
    prevReads := fun _ => []
    time := fun _ => "T"
    fit := fun _ => ⟨0, "out", "err", some (FileData.blob 1)⟩
    render := fun _ => "D" }

/-- An example world over `exEnv` with an empty filesystem. -/
def exWorld : World :=
  { env := exEnv, fs := fun _ => Option.none, nXyz := 0, nPrev := 0, nTime := 0, trace := [] }

/-- An import system in which no module resolves. -/
def exModulesEmpty : Modules := fun _ => Option.none

/-! ## C1: configuration failures of the resolver -/

/-- The error type `refit` uses for configuration failures (the
`RuntimeError` raised for an unresolvable module or a missing
attribute); the spec calls this type `ConfigurationError`. -/
def is_configuration_error : PyErr → Bool
  | PyErr.runtimeError _ => true
  | _ => false

/-- A module exposing one non-callable attribute `val`. -/
def exModC1 : PyModule := ⟨fun a => if a = "val" then some (PyAttr.nonCallable 0) else Option.none⟩

/-- An import system resolving exactly the module `mymod`. -/
def exModulesC1 : Modules := fun m => if m = "mymod" then some exModC1 else Option.none

/-- A state selecting the non-callable attribute `mymod.val`. -/
def exStateC1 : HybridMD := ⟨"data.xyz", some "mymod.val"⟩

/-- C1 counterexample: when the named attribute exists but is not
callable, `refit` fails the `assert callable(...)` with
`AssertionError`, which is not the `RuntimeError` configuration-error
type used for the other two failure cases — so the three cases do not
share one distinct ConfigurationError-type as claimed. -/
theorem C1_counterexample :
    (refit exModulesC1 exStateC1 exWorld).1 = Except.error PyErr.assertionError
    ∧ is_configuration_error PyErr.assertionError = false :=
  ⟨rfl, rfl⟩

/-- **C1 (amended)**: for a dotted `refit_function_name` with a
non-empty module part, an unresolvable module and a missing attribute
each raise the `RuntimeError` configuration error, while an attribute
that exists but is not callable raises `AssertionError`; in every case
the error is raised with the world unchanged, i.e. before any
filesystem write, model backup, or external-process side effect. -/
theorem C1_configuration_errors (modules : Modules) (st : HybridMD) (w : World)
    (s : String) (hs : st.refit_function_name = some s)
    (hm : module_name_of s ≠ "") :
    (modules (module_name_of s) = Option.none →
       refit modules st w =
         (Except.error (PyErr.runtimeError
            ("Refit function\x27s module not found: " ++ module_name_of s)), w))
    ∧ (∀ md, modules (module_name_of s) = some md →
         md.attrs (function_name_of s) = Option.none →
         refit modules st w =
           (Except.error (PyErr.runtimeError
              ("Refit function (" ++ function_name_of s ++ ") not found in module "
                 ++ module_name_of s)), w))
    ∧ (∀ md k, modules (module_name_of s) = some md →
         md.attrs (function_name_of s) = some (PyAttr.nonCallable k) →
         refit modules st w = (Except.error PyErr.assertionError, w)) := by
  refine ⟨fun h => ?_, fun md h h2 => ?_, fun md k h h2 => ?_⟩
  · simp [refit, hs, import_module, hm, h]
  · simp [refit, hs, import_module, hm, h, h2]
  · simp [refit, hs, import_module, hm, h, h2]

/-- A state naming a function in a module that does not resolve. -/
def exStateC1w : HybridMD := ⟨"data.xyz", some "nomod.f"⟩

/-- Witness for C1 at the missing-module case. -/
theorem C1_configuration_errors_witness :
    (exStateC1w.refit_function_name = some "nomod.f"
      ∧ module_name_of "nomod.f" ≠ ""
      ∧ exModulesEmpty (module_name_of "nomod.f") = Option.none)
    ∧ refit exModulesEmpty exStateC1w exWorld =
        (Except.error (PyErr.runtimeError
          ("Refit function\x27s module not found: " ++ module_name_of "nomod.f")), exWorld) :=
  ⟨⟨rfl, by decide, rfl⟩,
   (C1_configuration_errors exModulesEmpty exStateC1w exWorld "nomod.f" rfl (by decide)).1 rfl⟩

/-! ## C2: pass-through invocation of a resolved refit function -/

/-- An example user-supplied refit function with an observable result. -/
def exFunC2 : HybridMD → World → (Except PyErr PyVal) × World :=
  fun _ w => (Except.ok (PyVal.other 7), w)

/-- A module exposing the callable `myrefit`. -/
def exModC2 : PyModule :=
  ⟨fun a => if a = "myrefit" then some (PyAttr.pyfun exFunC2) else Option.none⟩

/-- An import system resolving exactly `plugins.custom`. -/
def exModulesC2 : Modules := fun m => if m = "plugins.custom" then some exModC2 else Option.none

/-- A state selecting `plugins.custom.myrefit`. -/
def exStateC2 : HybridMD := ⟨"data.xyz", some "plugins.custom.myrefit"⟩

/-- **C2**: when `refit_function_name` is a dotted name resolving to a
callable attribute `g`, `refit` returns exactly `g state` — the same
result and the same side effects, with no caching, retry, or
wrapping. -/
theorem C2_passthrough (modules : Modules) (st : HybridMD) (w : World)
    (s : String) (md : PyModule) (g : HybridMD → World → (Except PyErr PyVal) × World)
    (hs : st.refit_function_name = some s)
    (hm : module_name_of s ≠ "")
    (hmod : modules (module_name_of s) = some md)
    (hattr : md.attrs (function_name_of s) = some (PyAttr.pyfun g)) :
    refit modules st w = g st w := by
  simp [refit, hs, import_module, hm, hmod, hattr]

/-- Witness for C2 at a concrete plugin function. -/
theorem C2_passthrough_witness :
    (exStateC2.refit_function_name = some "plugins.custom.myrefit"
      ∧ module_name_of "plugins.custom.myrefit" ≠ ""
      ∧ exModulesC2 (module_name_of "plugins.custom.myrefit") = some exModC2
      ∧ exModC2.attrs (function_name_of "plugins.custom.myrefit")
          = some (PyAttr.pyfun exFunC2))
    ∧ refit exModulesC2 exStateC2 exWorld = exFunC2 exStateC2 exWorld :=
  ⟨⟨rfl, by decide, rfl, rfl⟩,
   C2_passthrough exModulesC2 exStateC2 exWorld "plugins.custom.myrefit" exModC2 exFunC2
     rfl (by decide) rfl rfl⟩

/-! ## C3: the absent-name sentinel -/

/-- A state whose `refit_function_name` is the empty string. -/
def exStateC3 : HybridMD := ⟨"data.xyz", some ""⟩

/-- C3 counterexample: with `refit_function_name = ""`, `refit` does
not select the generic strategy — it propagates the uncaught
`ValueError` from `importlib.import_module("")`, whereas the generic
strategy on the same world succeeds. -/
theorem C3_counterexample :
    (refit exModulesEmpty exStateC3 exWorld).1
        = Except.error (PyErr.valueError "Empty module name")
    ∧ (refit_generic exStateC3 Option.none Option.none exWorld).1 = Except.ok PyVal.none :=
  ⟨rfl, rfl⟩

/-- **C3 (amended)**: only a `None` (absent) `refit_function_name`
selects the built-in `refit_generic` with both the descriptor and sigma
arguments unset; the empty string is not treated as absent — it leads
to an uncaught `ValueError` from importing the empty module name,
leaving the world unchanged. -/
theorem C3_none_selects_generic (modules : Modules) (st : HybridMD) (w : World) :
    (st.refit_function_name = Option.none →
       refit modules st w = refit_generic st Option.none Option.none w)
    ∧ (st.refit_function_name = some "" →
       refit modules st w = (Except.error (PyErr.valueError "Empty module name"), w)) := by
  constructor
  · intro h; simp [refit, h]
  · intro h
    simp only [refit, h]
    rw [show module_name_of "" = "" from rfl]
    simp [import_module]

/-- A state with `refit_function_name` absent. -/
def exStateC3n : HybridMD := ⟨"data.xyz", Option.none⟩

/-- Witness for C3 at an absent `refit_function_name`. -/
theorem C3_none_selects_generic_witness :
    exStateC3n.refit_function_name = Option.none
    ∧ refit exModulesEmpty exStateC3n exWorld
        = refit_generic exStateC3n Option.none Option.none exWorld :=
  ⟨rfl, (C3_none_selects_generic exModulesEmpty exStateC3n exWorld).1 rfl⟩

end HybridMDRefit

namespace HybridMDRefit

/-! ## C4: the regularization scale delta -/

/-- Reference definition following the spec's words: the mean of a list
of per-atom energies. -/
noncomputable def spec_mean (xs : List ℝ) : ℝ := xs.sum / xs.length

/-- Reference definition following the spec's words: the population
standard deviation (square root of the mean squared deviation from the
mean). -/
noncomputable def spec_population_std (xs : List ℝ) : ℝ :=
  Real.sqrt ((xs.map (fun x => (x - spec_mean xs) ^ 2)).sum / xs.length)

/-- Reference definition following the spec's words: one quarter of the
population standard deviation, over all training structures, of
per-structure energy divided by atom count. -/
noncomputable def spec_delta (frames : List Atoms) : ℝ :=
  spec_population_std (frames.map (fun a => a.qm_energy / (a.natoms : ℝ))) / 4

/-- **C4**: for every non-empty training set, the `delta` computed by
`refit_turbo_si_c` (line 64) and by `refit_generic` (line 122) equals
one quarter of the population standard deviation of the per-atom
energies, as the spec states it. -/
theorem C4_delta (frames : List Atoms) (hne : frames ≠ []) :
    delta_turbo_si_c frames = spec_delta frames
    ∧ delta_generic frames = spec_delta frames :=
  ⟨rfl, rfl⟩

/-- The spec's pinned example: two structures of two atoms each with
energies `-2.0` and `-4.0`, i.e. per-atom energies `-1.0` and `-2.0`. -/
def exC4_frames : List Atoms := [⟨2, -2⟩, ⟨2, -4⟩]

/-- Evaluation of the spec-side delta on the pinned example:
`std([-1,-2]) / 4 = (1/2) / 4 = 0.125`. -/
theorem spec_delta_exC4 : spec_delta exC4_frames = 1 / 8 := by
  have h1 : exC4_frames.map (fun a => a.qm_energy / (a.natoms : ℝ)) = [-1, -2] := by
    simp [exC4_frames]
    norm_num
  unfold spec_delta
  rw [h1]
  unfold spec_population_std spec_mean
  norm_num
  rw [show (4 : ℝ) = 2 ^ 2 by norm_num, Real.sqrt_sq (by norm_num : (0 : ℝ) ≤ 2)]
  norm_num

/-- Witness for C4 at the spec's pinned training data: delta evaluates
to `0.125` for both strategies. -/
theorem C4_delta_witness :
    exC4_frames ≠ []
    ∧ delta_turbo_si_c exC4_frames = spec_delta exC4_frames
    ∧ delta_generic exC4_frames = spec_delta exC4_frames
    ∧ spec_delta exC4_frames = 1 / 8 :=
  ⟨by simp [exC4_frames],
   (C4_delta exC4_frames (by simp [exC4_frames])).1,
   (C4_delta exC4_frames (by simp [exC4_frames])).2,
   spec_delta_exC4⟩

end HybridMDRefit

namespace HybridMDRefit

/-! ## Execution lemmas for the generic invoker

Two unfolding lemmas characterise one run of `refit_generic`, depending
on whether a model file already exists under the canonical name. -/

/-- One run of `refit_generic` when a previous model exists under
`GAP.xml`: read, read, backup-move, training-file write, external run;
captures are written only on the success path. -/
lemma refit_generic_run_backup (st : HybridMD) (dopt σopt : Option String)
    (env : Env) (fs : String → Option FileData) (nx np nt : ℕ) (tr : List Event)
    (g : FileData) (hfs : fs gp_name = some g) :
    refit_generic st dopt σopt ⟨env, fs, nx, np, nt, tr⟩ =
      (let frames := env.xyzReads nx ++ env.prevReads np
       let cmd := generic_cmd dopt σopt env.render frames
       let r := env.fit cmd
       let bn := backup_name (env.time nt)
       let fs4 := setFile (setFile (setFile (setFile fs bn (some g)) gp_name Option.none)
         "train.xyz" (some (FileData.frames frames))) gp_name r.model
       let tr4 := tr ++ [Event.readXyz st.xyz_filename (env.xyzReads nx),
         Event.readPrev (env.prevReads np), Event.moveFile gp_name bn,
         Event.writeFile "train.xyz" (FileData.frames frames), Event.runProcess cmd]
       if r.exitCode ≠ 0 then
         (Except.error (PyErr.calledProcessError r.exitCode r.stdout r.stderr),
          ⟨env, fs4, nx + 1, np + 1, nt + 1, tr4⟩)
       else
         (Except.ok PyVal.none,
          ⟨env,
           setFile (setFile fs4 (stdout_capture_name (env.time (nt + 1)))
               (some (FileData.text r.stdout)))
             (stderr_capture_name (env.time (nt + 2))) (some (FileData.text r.stderr)),
           nx + 1, np + 1, nt + 3,
           tr4 ++ [Event.writeFile (stdout_capture_name (env.time (nt + 1))) (FileData.text r.stdout),
             Event.writeFile (stderr_capture_name (env.time (nt + 2))) (FileData.text r.stderr)]⟩)) := by
  simp only [refit_generic, readXyzFile, getPreviousData, callTime, shutilMove, writeFileW,
    runProcess, generic_cmd, hfs, Option.isSome_some, if_true, List.append_assoc,
    List.cons_append, List.nil_append, List.singleton_append]

/-- One run of `refit_generic` when no previous model exists: as above
but with no backup move and no `time()` call for the backup name. -/
lemma refit_generic_run_nobackup (st : HybridMD) (dopt σopt : Option String)
    (env : Env) (fs : String → Option FileData) (nx np nt : ℕ) (tr : List Event)
    (hfs : fs gp_name = Option.none) :
    refit_generic st dopt σopt ⟨env, fs, nx, np, nt, tr⟩ =
      (let frames := env.xyzReads nx ++ env.prevReads np
       let cmd := generic_cmd dopt σopt env.render frames
       let r := env.fit cmd
       let fs4 := setFile (setFile fs "train.xyz" (some (FileData.frames frames))) gp_name r.model
       let tr4 := tr ++ [Event.readXyz st.xyz_filename (env.xyzReads nx),
         Event.readPrev (env.prevReads np),
         Event.writeFile "train.xyz" (FileData.frames frames), Event.runProcess cmd]
       if r.exitCode ≠ 0 then
         (Except.error (PyErr.calledProcessError r.exitCode r.stdout r.stderr),
          ⟨env, fs4, nx + 1, np + 1, nt, tr4⟩)
       else
         (Except.ok PyVal.none,
          ⟨env,
           setFile (setFile fs4 (stdout_capture_name (env.time nt))
               (some (FileData.text r.stdout)))
             (stderr_capture_name (env.time (nt + 1))) (some (FileData.text r.stderr)),
           nx + 1, np + 1, nt + 2,
           tr4 ++ [Event.writeFile (stdout_capture_name (env.time nt)) (FileData.text r.stdout),
             Event.writeFile (stderr_capture_name (env.time (nt + 1))) (FileData.text r.stderr)]⟩)) := by
  simp only [refit_generic, readXyzFile, getPreviousData, callTime, shutilMove, writeFileW,
    runProcess, generic_cmd, hfs, Option.isSome_none, Bool.false_eq_true, if_false,
    List.append_assoc, List.cons_append, List.nil_append, List.singleton_append]

/-- `refit_turbo_si_c` delegates to `refit_generic` on the world after
its own two reads, passing the TurboSOAP descriptor string and its
fixed sigma. -/
lemma refit_turbo_si_c_eq (st : HybridMD) (w : World) :
    refit_turbo_si_c st w =
      refit_generic st
        (some (turbo_descriptor_strs w.env.render
          (delta_turbo_si_c (w.env.xyzReads w.nXyz ++ w.env.prevReads w.nPrev))))
        (some turbo_default_sigma)
        ((getPreviousData (readXyzFile st w).2).2) :=
  rfl

end HybridMDRefit

namespace HybridMDRefit

/-! ## Distinctness of the artifact file names -/

/-- Two strings differing at some character position are different. -/
lemma str_ne_of_get (a b : String) (k : ℕ)
    (h : a.data.get? k ≠ b.data.get? k) : a ≠ b :=
  fun e => h (congrArg (fun s => s.data.get? k) e)

/-- A backup name never collides with the training file name. -/
lemma backup_name_ne_train (t : String) : backup_name t ≠ "train.xyz" :=
  str_ne_of_get _ _ 0 (by
    rw [show (backup_name t).data.get? 0 = some 's' from rfl]
    decide)

/-- A backup name never collides with the canonical model name. -/
lemma backup_name_ne_gp (t : String) : backup_name t ≠ gp_name :=
  str_ne_of_get _ _ 0 (by
    rw [show (backup_name t).data.get? 0 = some 's' from rfl]
    decide)

/-- A stdout capture name never collides with the training file name. -/
lemma stdout_capture_ne_train (t : String) : stdout_capture_name t ≠ "train.xyz" :=
  str_ne_of_get _ _ 1 (by
    rw [show (stdout_capture_name t).data.get? 1 = some 't' from rfl]
    decide)

/-- A stderr capture name never collides with the training file name. -/
lemma stderr_capture_ne_train (t : String) : stderr_capture_name t ≠ "train.xyz" :=
  str_ne_of_get _ _ 1 (by
    rw [show (stderr_capture_name t).data.get? 1 = some 't' from rfl]
    decide)

/-- A stdout capture name never collides with the canonical model name. -/
lemma stdout_capture_ne_gp (t : String) : stdout_capture_name t ≠ gp_name :=
  str_ne_of_get _ _ 0 (by
    rw [show (stdout_capture_name t).data.get? 0 = some 's' from rfl]
    decide)

/-- A stderr capture name never collides with the canonical model name. -/
lemma stderr_capture_ne_gp (t : String) : stderr_capture_name t ≠ gp_name :=
  str_ne_of_get _ _ 0 (by
    rw [show (stderr_capture_name t).data.get? 0 = some 's' from rfl]
    decide)

/-- A backup name never collides with a stdout capture name. -/
lemma backup_name_ne_stdout (t u : String) : backup_name t ≠ stdout_capture_name u :=
  str_ne_of_get _ _ 1 (by
    rw [show (backup_name t).data.get? 1 = some 'a' from rfl,
      show (stdout_capture_name u).data.get? 1 = some 't' from rfl]
    decide)

/-- A backup name never collides with a stderr capture name. -/
lemma backup_name_ne_stderr (t u : String) : backup_name t ≠ stderr_capture_name u :=
  str_ne_of_get _ _ 1 (by
    rw [show (backup_name t).data.get? 1 = some 'a' from rfl,
      show (stderr_capture_name u).data.get? 1 = some 't' from rfl]
    decide)

/-- The two capture names never collide with each other. -/
lemma stdout_capture_ne_stderr (t u : String) :
    stdout_capture_name t ≠ stderr_capture_name u :=
  str_ne_of_get _ _ 3 (by
    rw [show (stdout_capture_name t).data.get? 3 = some 'o' from rfl,
      show (stderr_capture_name u).data.get? 3 = some 'e' from rfl]
    decide)

/-- The training file name is not the canonical model name. -/
lemma train_ne_gp : ("train.xyz" : String) ≠ gp_name := by decide

/-- Backup names are injective in the timestamp text: two calls with
different timestamps can never produce the same backup name. -/
lemma backup_name_injective (t₁ t₂ : String) (h : backup_name t₁ = backup_name t₂) :
    t₁ = t₂ := by
  have hd := congrArg String.data h
  simp only [backup_name, gp_name, String.data_append, List.append_assoc] at hd
  have h1 := List.append_cancel_left hd
  have h2 := List.append_cancel_right h1
  exact String.ext h2

end HybridMDRefit

namespace HybridMDRefit

/-! ## C5: the training set and its serialization -/

/-- **C5**: on every invocation of `refit_generic` (and, at its own
later read indices, of `refit_turbo_si_c`), the training set written to
the fixed-name file `train.xyz` is exactly the structures read from
`state.xyz_filename` followed by the structures from
`state.get_previous_data()`; the write happens with no hypothesis on
the prior contents of `train.xyz`, i.e. it unconditionally overwrites. -/
theorem C5_training_set (st : HybridMD) (dopt σopt : Option String) (w : World) :
    ((refit_generic st dopt σopt w).2).fs "train.xyz"
        = some (FileData.frames (w.env.xyzReads w.nXyz ++ w.env.prevReads w.nPrev))
    ∧ ((refit_turbo_si_c st w).2).fs "train.xyz"
        = some (FileData.frames (w.env.xyzReads (w.nXyz + 1) ++ w.env.prevReads (w.nPrev + 1))) := by
  obtain ⟨env, fs, nx, np, nt, tr⟩ := w
  have h1 : ∀ u, ("train.xyz" : String) ≠ stdout_capture_name u :=
    fun u => (stdout_capture_ne_train u).symm
  have h2 : ∀ u, ("train.xyz" : String) ≠ stderr_capture_name u :=
    fun u => (stderr_capture_ne_train u).symm
  have h3 : ∀ u, ("train.xyz" : String) ≠ backup_name u :=
    fun u => (backup_name_ne_train u).symm
  constructor
  · rcases hgp : fs gp_name with _ | g
    · rw [refit_generic_run_nobackup st dopt σopt env fs nx np nt tr hgp]
      dsimp only
      split <;> simp [setFile, h1, h2, h3, train_ne_gp]
    · rw [refit_generic_run_backup st dopt σopt env fs nx np nt tr g hgp]
      dsimp only
      split <;> simp [setFile, h1, h2, h3, train_ne_gp]
  · rw [refit_turbo_si_c_eq]
    simp only [readXyzFile, getPreviousData]
    rcases hgp : fs gp_name with _ | g
    · rw [refit_generic_run_nobackup]
      · dsimp only
        split <;> simp [setFile, h1, h2, h3, train_ne_gp]
      · exact hgp
    · rw [refit_generic_run_backup _ _ _ _ _ _ _ _ _ g]
      · dsimp only
        split <;> simp [setFile, h1, h2, h3, train_ne_gp]
      · exact hgp

end HybridMDRefit

namespace HybridMDRefit

/-! ## C6: the assembled command line -/

/-- Reference command line following the spec's words: the external tool
with exactly the fixed parameters `at_file=train.xyz`, `gp_file=GAP.xml`,
the three label names, `sparse_jitter=1.0e-8`, `do_copy_at_file=F`,
`sparse_separate_file=F`, `e0_method=average`, plus the default-sigma
and descriptor values each wrapped in brace-delimited composite-value
syntax. -/
def spec_fit_cmd (sigma descs : String) : String :=
  "gap_fit" ++ " at_file=train.xyz" ++ " gp_file=GAP.xml" ++
  " energy_parameter_name=QM_energy" ++ " force_parameter_name=QM_forces" ++
  " virial_parameter_name=QM_virial" ++ " sparse_jitter=1.0e-8" ++
  " do_copy_at_file=F" ++ " sparse_separate_file=F" ++
  " default_sigma=\x7b " ++ sigma ++ " \x7d" ++ " e0_method=average" ++
  " gap=\x7b " ++ descs ++ " \x7d"

/-- The source's assembled fitting string coincides with the spec's
parameter-by-parameter reading for every sigma and descriptor value. -/
lemma fit_str_eq_spec (sigma descs : String) :
    fit_str sigma descs = spec_fit_cmd sigma descs := by
  apply String.ext
  simp only [fit_str, spec_fit_cmd, gp_name, String.data_append, List.append_assoc]
  rfl

/-- The commands executed in a trace, in order. -/
def run_cmds (tr : List Event) : List String :=
  tr.filterMap (fun e => match e with | Event.runProcess c => some c | _ => Option.none)

/-- **C6**: every invocation of `refit_generic` executes exactly one
external command, equal to the spec's command line with the resolved
sigma and descriptor values; and an absent `default_sigma` resolves to
the fixed four-value default `"0.005 0.050 0.1 1.0"`. -/
theorem C6_command_line (st : HybridMD) (dopt σopt : Option String) (w : World)
    (htr : w.trace = []) :
    run_cmds ((refit_generic st dopt σopt w).2).trace
        = [spec_fit_cmd (resolved_sigma σopt)
            (resolved_descs dopt w.env.render (w.env.xyzReads w.nXyz ++ w.env.prevReads w.nPrev))]
    ∧ resolved_sigma Option.none = "0.005 0.050 0.1 1.0" := by
  obtain ⟨env, fs, nx, np, nt, tr⟩ := w
  dsimp only at htr
  subst htr
  refine ⟨?_, rfl⟩
  rcases hgp : fs gp_name with _ | g
  · rw [refit_generic_run_nobackup st dopt σopt env fs nx np nt [] hgp]
    dsimp only
    split <;> simp [run_cmds, generic_cmd, fit_str_eq_spec]
  · rw [refit_generic_run_backup st dopt σopt env fs nx np nt [] g hgp]
    dsimp only
    split <;> simp [run_cmds, generic_cmd, fit_str_eq_spec]

/-- Witness for C6 on a concrete world, with explicit sigma and
descriptor arguments. -/
theorem C6_command_line_witness :
    exWorld.trace = []
    ∧ run_cmds ((refit_generic exStateC3n (some "DESCS") (some "SIG") exWorld).2).trace
        = [spec_fit_cmd (resolved_sigma (some "SIG"))
            (resolved_descs (some "DESCS") exWorld.env.render
              (exWorld.env.xyzReads exWorld.nXyz ++ exWorld.env.prevReads exWorld.nPrev))]
    ∧ resolved_sigma Option.none = "0.005 0.050 0.1 1.0" :=
  ⟨rfl,
   (C6_command_line exStateC3n (some "DESCS") (some "SIG") exWorld rfl).1,
   (C6_command_line exStateC3n (some "DESCS") (some "SIG") exWorld rfl).2⟩

end HybridMDRefit

namespace HybridMDRefit

/-! ## C7: the model backup policy -/

/-- **C7**: when a model exists under the canonical name `GAP.xml`, the
generic invoker renames it — before the external fit runs (the move is
the third trace event, the run the fifth) — to
`save__<time>__GAP.xml`, which preserves the canonical name segment;
the old model's content is found intact under the backup name
afterwards; every file other than the canonical name, the training
file, the new backup name and the two capture names is untouched (so no
existing backup is overwritten or deleted, backup names being injective
in the timestamp so that distinct timestamps can never collide); and
the canonical name itself is the only name the fit writes a model to,
so at most one current artifact exists under it. -/
theorem C7_backup_policy (st : HybridMD) (dopt σopt : Option String) (w : World) (g : FileData)
    (htr : w.trace = []) (hgp : w.fs gp_name = some g) :
    (((refit_generic st dopt σopt w).2).trace.take 5 =
        [Event.readXyz st.xyz_filename (w.env.xyzReads w.nXyz),
         Event.readPrev (w.env.prevReads w.nPrev),
         Event.moveFile gp_name (backup_name (w.env.time w.nTime)),
         Event.writeFile "train.xyz"
           (FileData.frames (w.env.xyzReads w.nXyz ++ w.env.prevReads w.nPrev)),
         Event.runProcess (generic_cmd dopt σopt w.env.render
           (w.env.xyzReads w.nXyz ++ w.env.prevReads w.nPrev))])
    ∧ ((refit_generic st dopt σopt w).2).fs (backup_name (w.env.time w.nTime)) = some g
    ∧ (∀ n, n ≠ gp_name → n ≠ "train.xyz" → n ≠ backup_name (w.env.time w.nTime) →
        n ≠ stdout_capture_name (w.env.time (w.nTime + 1)) →
        n ≠ stderr_capture_name (w.env.time (w.nTime + 2)) →
        ((refit_generic st dopt σopt w).2).fs n = w.fs n)
    ∧ (∀ t₁ t₂, backup_name t₁ = backup_name t₂ → t₁ = t₂) := by
  obtain ⟨env, fs, nx, np, nt, tr⟩ := w
  dsimp only at htr hgp ⊢
  subst htr
  rw [refit_generic_run_backup st dopt σopt env fs nx np nt [] g hgp]
  dsimp only
  refine ⟨?_, ?_, ?_, backup_name_injective⟩
  · split <;> simp
  · split <;>
      simp [setFile, backup_name_ne_stdout, backup_name_ne_stderr, backup_name_ne_gp,
        backup_name_ne_train]
  · intro n h1 h2 h3 h4 h5
    split <;> simp [setFile, h1, h2, h3, h4, h5]

/-- A world in which a model artifact already exists under `GAP.xml`. -/
def exWorldGP : World :=
  { env := exEnv
    fs := fun n => if n = "GAP.xml" then some (FileData.blob 0) else Option.none
    nXyz := 0, nPrev := 0, nTime := 0, trace := [] }

/-- Witness for C7: the pre-existing model is found under the
timestamped backup name after the call. -/
theorem C7_backup_policy_witness :
    (exWorldGP.trace = [] ∧ exWorldGP.fs gp_name = some (FileData.blob 0))
    ∧ ((refit_generic exStateC3n Option.none Option.none exWorldGP).2).fs
        (backup_name (exWorldGP.env.time exWorldGP.nTime)) = some (FileData.blob 0) :=
  ⟨⟨rfl, rfl⟩,
   (C7_backup_policy exStateC3n Option.none Option.none exWorldGP (FileData.blob 0)
      rfl rfl).2.1⟩

end HybridMDRefit

namespace HybridMDRefit

/-! ## C8: external process failure -/

/-- **C8**: when the external fitting process exits non-zero, the
generic invoker raises the fatal `CalledProcessError` carrying both
captured streams; the trace ends at the single run event — so no
capture files are written and the failure is not retried — while the
backup rename and the `train.xyz` write have already happened and are
not rolled back. -/
theorem C8_process_failure (st : HybridMD) (dopt σopt : Option String) (w : World) (g : FileData)
    (htr : w.trace = []) (hgp : w.fs gp_name = some g)
    (hexit : (w.env.fit (generic_cmd dopt σopt w.env.render
      (w.env.xyzReads w.nXyz ++ w.env.prevReads w.nPrev))).exitCode ≠ 0) :
    (refit_generic st dopt σopt w).1
        = Except.error (PyErr.calledProcessError
            (w.env.fit (generic_cmd dopt σopt w.env.render
              (w.env.xyzReads w.nXyz ++ w.env.prevReads w.nPrev))).exitCode
            (w.env.fit (generic_cmd dopt σopt w.env.render
              (w.env.xyzReads w.nXyz ++ w.env.prevReads w.nPrev))).stdout
            (w.env.fit (generic_cmd dopt σopt w.env.render
              (w.env.xyzReads w.nXyz ++ w.env.prevReads w.nPrev))).stderr)
    ∧ ((refit_generic st dopt σopt w).2).trace =
        [Event.readXyz st.xyz_filename (w.env.xyzReads w.nXyz),
         Event.readPrev (w.env.prevReads w.nPrev),
         Event.moveFile gp_name (backup_name (w.env.time w.nTime)),
         Event.writeFile "train.xyz"
           (FileData.frames (w.env.xyzReads w.nXyz ++ w.env.prevReads w.nPrev)),
         Event.runProcess (generic_cmd dopt σopt w.env.render
           (w.env.xyzReads w.nXyz ++ w.env.prevReads w.nPrev))]
    ∧ ((refit_generic st dopt σopt w).2).fs "train.xyz"
        = some (FileData.frames (w.env.xyzReads w.nXyz ++ w.env.prevReads w.nPrev))
    ∧ ((refit_generic st dopt σopt w).2).fs (backup_name (w.env.time w.nTime)) = some g := by
  obtain ⟨env, fs, nx, np, nt, tr⟩ := w
  dsimp only at htr hgp hexit ⊢
  subst htr
  rw [refit_generic_run_backup st dopt σopt env fs nx np nt [] g hgp]
  dsimp only
  rw [if_pos hexit]
  refine ⟨rfl, by simp, ?_, ?_⟩
  · simp [setFile, (backup_name_ne_train (env.time nt)).symm, train_ne_gp]
  · simp [setFile, backup_name_ne_train, backup_name_ne_gp]

/-- An environment whose external fitting tool fails with exit code 1. -/
def exEnvFail : Env :=
  { xyzReads := fun _ => [⟨1, -1⟩]
    prevReads := fun _ => []
    time := fun _ => "T"
    fit := fun _ => ⟨1, "tool stdout", "tool stderr", Option.none⟩
    render := fun _ => "D" }

/-- A world with a failing fitting tool and an existing model file. -/
def exWorldFail : World :=
  { env := exEnvFail
    fs := fun n => if n = "GAP.xml" then some (FileData.blob 0) else Option.none
    nXyz := 0, nPrev := 0, nTime := 0, trace := [] }

/-- Witness for C8: the concrete failing run raises the error carrying
both captured streams. -/
theorem C8_process_failure_witness :
    (exWorldFail.trace = [] ∧ exWorldFail.fs gp_name = some (FileData.blob 0)
      ∧ (exWorldFail.env.fit (generic_cmd Option.none Option.none exWorldFail.env.render
          (exWorldFail.env.xyzReads exWorldFail.nXyz
            ++ exWorldFail.env.prevReads exWorldFail.nPrev))).exitCode ≠ 0)
    ∧ (refit_generic exStateC3n Option.none Option.none exWorldFail).1
        = Except.error (PyErr.calledProcessError
            (exWorldFail.env.fit (generic_cmd Option.none Option.none exWorldFail.env.render
              (exWorldFail.env.xyzReads exWorldFail.nXyz
                ++ exWorldFail.env.prevReads exWorldFail.nPrev))).exitCode
            (exWorldFail.env.fit (generic_cmd Option.none Option.none exWorldFail.env.render
              (exWorldFail.env.xyzReads exWorldFail.nXyz
                ++ exWorldFail.env.prevReads exWorldFail.nPrev))).stdout
            (exWorldFail.env.fit (generic_cmd Option.none Option.none exWorldFail.env.render
              (exWorldFail.env.xyzReads exWorldFail.nXyz
                ++ exWorldFail.env.prevReads exWorldFail.nPrev))).stderr) :=
  ⟨⟨rfl, rfl, by decide⟩,
   (C8_process_failure exStateC3n Option.none Option.none exWorldFail (FileData.blob 0)
      rfl rfl (by decide)).1⟩

end HybridMDRefit

namespace HybridMDRefit

/-! ## C9: the specialized strategy's default sigma -/

/-- C9 counterexample: the fixed four-value sigma string passed by
`refit_turbo_si_c` (line 90) is character-for-character the same as the
default substituted by `refit_generic` (line 114) — not distinct as
claimed. -/
theorem C9_counterexample : turbo_default_sigma = generic_default_sigma := rfl

/-- **C9 (amended)**: `refit_turbo_si_c` passes the fixed four-value
sigma string `"0.005 0.050 0.1 1.0"` to the generic invoker, and that
string is identical to the generic strategy's own default, so the
override resolves to exactly the same sigma as passing no sigma at
all. -/
theorem C9_sigma_identical (st : HybridMD) (w : World) :
    refit_turbo_si_c st w =
      refit_generic st
        (some (turbo_descriptor_strs w.env.render
          (delta_turbo_si_c (w.env.xyzReads w.nXyz ++ w.env.prevReads w.nPrev))))
        (some turbo_default_sigma)
        ((getPreviousData (readXyzFile st w).2).2)
    ∧ turbo_default_sigma = generic_default_sigma
    ∧ resolved_sigma (some turbo_default_sigma) = resolved_sigma Option.none :=
  ⟨refit_turbo_si_c_eq st w, rfl, rfl⟩

/-! ## C10: the double read in the specialized strategy -/

/-- Recognizer for structure-file read events. -/
def is_read_xyz : Event → Bool
  | Event.readXyz _ _ => true
  | _ => false

/-- Recognizer for `get_previous_data` read events. -/
def is_read_prev : Event → Bool
  | Event.readPrev _ => true
  | _ => false

/-- **C10**: one call of `refit_turbo_si_c` reads the structure file
and the previous data exactly twice each — once itself (the first two
trace events) and once inside `refit_generic` — and the `train.xyz`
training file is written from the results of the second reads (read
indices `nXyz + 1` and `nPrev + 1`), not the first. -/
theorem C10_double_read (st : HybridMD) (w : World) (htr : w.trace = []) :
    (((refit_turbo_si_c st w).2).trace.filter is_read_xyz).length = 2
    ∧ (((refit_turbo_si_c st w).2).trace.filter is_read_prev).length = 2
    ∧ ((refit_turbo_si_c st w).2).trace.take 2 =
        [Event.readXyz st.xyz_filename (w.env.xyzReads w.nXyz),
         Event.readPrev (w.env.prevReads w.nPrev)]
    ∧ ((refit_turbo_si_c st w).2).fs "train.xyz"
        = some (FileData.frames (w.env.xyzReads (w.nXyz + 1) ++ w.env.prevReads (w.nPrev + 1))) := by
  obtain ⟨env, fs, nx, np, nt, tr⟩ := w
  dsimp only at htr ⊢
  subst htr
  have h1 : ∀ u, ("train.xyz" : String) ≠ stdout_capture_name u :=
    fun u => (stdout_capture_ne_train u).symm
  have h2 : ∀ u, ("train.xyz" : String) ≠ stderr_capture_name u :=
    fun u => (stderr_capture_ne_train u).symm
  have h3 : ∀ u, ("train.xyz" : String) ≠ backup_name u :=
    fun u => (backup_name_ne_train u).symm
  rw [refit_turbo_si_c_eq]
  simp only [readXyzFile, getPreviousData]
  rcases hgp : fs gp_name with _ | g
  · rw [refit_generic_run_nobackup]
    · dsimp only
      split <;>
        refine ⟨by simp [is_read_xyz, is_read_prev], by simp [is_read_xyz, is_read_prev],
          by simp, by simp [setFile, h1, h2, h3, train_ne_gp]⟩
    · exact hgp
  · rw [refit_generic_run_backup _ _ _ _ _ _ _ _ _ g]
    · dsimp only
      split <;>
        refine ⟨by simp [is_read_xyz, is_read_prev], by simp [is_read_xyz, is_read_prev],
          by simp, by simp [setFile, h1, h2, h3, train_ne_gp]⟩
    · exact hgp

/-- An environment whose successive structure-file and previous-data
reads return different values, so that first and second reads are
distinguishable. -/
def exEnvC10 : Env :=
  { xyzReads := fun n => if n = 0 then [⟨1, -1⟩] else [⟨2, -2⟩]
    prevReads := fun n => if n = 0 then [] else [⟨3, -3⟩]
    time := fun _ => "T"
    fit := fun _ => ⟨0, "", "", some (FileData.blob 2)⟩
    render := fun _ => "D" }

/-- A world over `exEnvC10` with an empty filesystem and trace. -/
def exWorldC10 : World :=
  { env := exEnvC10, fs := fun _ => Option.none, nXyz := 0, nPrev := 0, nTime := 0, trace := [] }

/-- Witness for C10: on a world whose second reads differ from the
first, the written training set is the one from the second reads. -/
theorem C10_double_read_witness :
    exWorldC10.trace = []
    ∧ ((refit_turbo_si_c exStateC3n exWorldC10).2).fs "train.xyz"
        = some (FileData.frames (exWorldC10.env.xyzReads (exWorldC10.nXyz + 1)
            ++ exWorldC10.env.prevReads (exWorldC10.nPrev + 1)))
    ∧ exWorldC10.env.xyzReads (exWorldC10.nXyz + 1) ++ exWorldC10.env.prevReads (exWorldC10.nPrev + 1)
        ≠ exWorldC10.env.xyzReads exWorldC10.nXyz ++ exWorldC10.env.prevReads exWorldC10.nPrev :=
  ⟨rfl,
   (C10_double_read exStateC3n exWorldC10 rfl).2.2.2,
   by simp [exWorldC10, exEnvC10]⟩

end HybridMDRefit
